import Mathlib

/-!
Verification of the supabase-go-rest client library (file supabase.go).

The Go source is shallowly embedded: the HTTP transport is an oracle
function from requests to responses, Go byte strings are Lean strings
(with an explicit UTF-8 byte view where the stdlib works on bytes),
Go errors are values carrying the identity of the errors.New call site
that produced them, and every operation of the client is a pure function
of the client value, the oracle and its arguments.
-/

namespace Supabase

/-! ### Go string helpers (models of the strings package functions used) -/

/-- Model of Go strings.HasPrefix at the character level (the only
prefixes used by the source are ASCII, where bytes and characters agree). -/
def hasPre (s pre : String) : Bool := pre.data.isPrefixOf s.data

/-- Model of Go strings.TrimPrefix(s, "/"): removes one leading slash if present. -/
def trimSlash (s : String) : String :=
  if hasPre s "/" then String.mk (s.data.drop 1) else s

/-- Model of Go strings.Contains, used only to state claims about emitted
query strings. -/
def listHasSub (needle : List Char) : List Char → Bool
  | [] => needle.isEmpty
  | c :: rest => needle.isPrefixOf (c :: rest) || listHasSub needle rest

/-- String form of listHasSub: does hay contain needle as a substring. -/
def containsSub (hay needle : String) : Bool := listHasSub needle.data hay.data

/-- Join a list of strings with a separator (model of strings.Join as used
by the url package when encoding query values). -/
def joinWith (sep : String) : List String → String
  | [] => ""
  | [x] => x
  | x :: y :: xs => x ++ sep ++ joinWith sep (y :: xs)

/-- Split a character list at every occurrence of the separator. -/
def splitCharList (sep : Char) : List Char → List (List Char)
  | [] => [[]]
  | c :: rest =>
    let r := splitCharList sep rest
    if c = sep then [] :: r
    else
      match r with
      | [] => [[c]]
      | h :: t => (c :: h) :: t

/-- Split a character list at the first occurrence of a character: returns
the part before it and, when found, the part after it. -/
def splitAtFirstChar (sep : Char) : List Char → List Char × Option (List Char)
  | [] => ([], none)
  | c :: rest =>
    if c = sep then ([], some rest)
    else
      let p := splitAtFirstChar sep rest
      (c :: p.1, p.2)

/-! ### UTF-8 byte view of Go strings

Go strings are byte sequences; url.QueryEscape operates byte by byte.
We model the byte view with an explicit UTF-8 encoder so that the
escaping round-trip can be stated at the level Go works at. -/

/-- UTF-8 encoding of one character as a list of byte values. -/
def utf8BytesOfChar (c : Char) : List Nat :=
  let n := c.toNat
  if n < 0x80 then [n]
  else if n < 0x800 then [0xC0 + n / 64, 0x80 + n % 64]
  else if n < 0x10000 then [0xE0 + n / 4096, 0x80 + (n / 64) % 64, 0x80 + n % 64]
  else [0xF0 + n / 262144, 0x80 + (n / 4096) % 64, 0x80 + (n / 64) % 64, 0x80 + n % 64]

/-- The UTF-8 bytes of a Go string. -/
def strBytes (s : String) : List Nat := (s.data.map utf8BytesOfChar).flatten

/-! ### Model of Go url.QueryEscape / url.QueryUnescape -/

/-- The bytes Go url.QueryEscape leaves unescaped: ASCII letters, digits,
and the characters minus, period, underscore, tilde. -/
def isUnreservedByte (b : Nat) : Bool :=
  (decide (65 ≤ b) && decide (b ≤ 90)) ||
  (decide (97 ≤ b) && decide (b ≤ 122)) ||
  (decide (48 ≤ b) && decide (b ≤ 57)) ||
  b == 45 || b == 46 || b == 95 || b == 126

/-- Uppercase hexadecimal digit, as emitted by Go's percent-encoder. -/
def hexDigitUpper (n : Nat) : Char := "0123456789ABCDEF".data.getD n '0'

/-- How Go url.QueryEscape renders one byte: unreserved bytes stand for
themselves, a space becomes a plus sign, everything else is
percent-encoded with uppercase hex digits. -/
def escByte (b : Nat) : List Char :=
  if isUnreservedByte b then [Char.ofNat b]
  else if b == 32 then ['+']
  else ['%', hexDigitUpper (b / 16), hexDigitUpper (b % 16)]

/-- Model of Go url.QueryEscape on a byte sequence. -/
def queryEscapeBytes (bs : List Nat) : List Char := (bs.map escByte).flatten

/-- Model of Go url.QueryEscape on a Go string (escape its UTF-8 bytes). -/
def queryEscape (s : String) : String := String.mk (queryEscapeBytes (strBytes s))

/-- Model of Go's unhex: the value of one hexadecimal digit character. -/
def unhexChar (c : Char) : Option Nat :=
  let n := c.toNat
  if decide (48 ≤ n) && decide (n ≤ 57) then some (n - 48)
  else if decide (97 ≤ n) && decide (n ≤ 102) then some (n - 97 + 10)
  else if decide (65 ≤ n) && decide (n ≤ 70) then some (n - 65 + 10)
  else none

/-- Model of Go url.QueryUnescape producing the decoded byte sequence: a
percent sign followed by two hex digits decodes to that byte, a plus sign
decodes to a space, any other character stands for its own byte (the
inputs decoded by this development are ASCII, where character and byte
agree); a malformed percent escape is an error (none). -/
def queryUnescapeChars : List Char → Option (List Nat)
  | [] => some []
  | c :: rest =>
    if c = '%' then
      match rest with
      | a :: b :: rest2 =>
        match unhexChar a, unhexChar b with
        | some x, some y => (queryUnescapeChars rest2).map (fun l => (16 * x + y) :: l)
        | _, _ => none
      | _ => none
    else if c = '+' then (queryUnescapeChars rest).map (fun l => 32 :: l)
    else (queryUnescapeChars rest).map (fun l => c.toNat :: l)

/-! ### Model of encoding/json marshaling for the payload shapes used

Go json.Marshal emits struct fields in declaration order, emits the
entries of a map[string]string sorted by key, and HTML-escapes nothing
relevant to the values this client sends; the escaper below covers the
quote, backslash and control characters. -/

/-- Lexicographic comparison of character lists by code point, the order
Go sorts map keys in when marshaling a map. -/
def charListLe : List Char → List Char → Bool
  | [], _ => true
  | _ :: _, [] => false
  | a :: as, b :: bs =>
    if a.toNat < b.toNat then true
    else if b.toNat < a.toNat then false
    else charListLe as bs

/-- JSON escaping of one character as Go's encoder renders it inside a
quoted string. -/
def jsonEscapeChar (c : Char) : List Char :=
  if c = '"' then ['\\', '"']
  else if c = '\\' then ['\\', '\\']
  else if c = '\n' then ['\\', 'n']
  else if c = '\t' then ['\\', 't']
  else if c = '\r' then ['\\', 'r']
  else if c.toNat < 32 then
    ['\\', 'u', '0', '0', hexDigitUpper (c.toNat / 16), hexDigitUpper (c.toNat % 16)]
  else [c]

/-- A JSON string literal for a value, quotes included. -/
def jsonQuote (s : String) : String :=
  "\"" ++ String.mk ((s.data.map jsonEscapeChar).flatten) ++ "\""

/-- Insert one key/value pair into a key-sorted list of pairs, after any
pair whose key is less than or equal to its key. -/
def insertByKeyPair (x : String × String) : List (String × String) → List (String × String)
  | [] => [x]
  | y :: ys => if charListLe y.1.data x.1.data then y :: insertByKeyPair x ys else x :: y :: ys

/-- Sort a list of key/value pairs by key (insertion sort). -/
def sortPairsByKey (l : List (String × String)) : List (String × String) :=
  l.foldr insertByKeyPair []

/-- Model of Go json.Marshal on a map[string]string: entries sorted by
key, each rendered as a quoted key/value pair inside one object. -/
def marshalStringMap (m : List (String × String)) : String :=
  "\x7b" ++
    joinWith "," ((sortPairsByKey m).map (fun kv => jsonQuote kv.1 ++ ":" ++ jsonQuote kv.2)) ++
    "\x7d"

/-- The TokenRequestPayload struct of the source: fields email, password,
refresh_token, grant_type, all tagged omitempty. -/
structure TokenRequestPayload where
  Email : String := ""
  Password : String := ""
  RefreshToken : String := ""
  GrantType : String := ""
deriving Repr, DecidableEq

/-- Model of Go json.Marshal on TokenRequestPayload: fields in declaration
order, empty fields omitted (all four carry the omitempty option). -/
def marshalTokenRequestPayload (p : TokenRequestPayload) : String :=
  let fields :=
    (if p.Email = "" then [] else [jsonQuote "email" ++ ":" ++ jsonQuote p.Email]) ++
    (if p.Password = "" then [] else [jsonQuote "password" ++ ":" ++ jsonQuote p.Password]) ++
    (if p.RefreshToken = "" then [] else [jsonQuote "refresh_token" ++ ":" ++ jsonQuote p.RefreshToken]) ++
    (if p.GrantType = "" then [] else [jsonQuote "grant_type" ++ ":" ++ jsonQuote p.GrantType])
  "\x7b" ++ joinWith "," fields ++ "\x7d"

/-- The MagicLinkPayload struct of the source: one email field. -/
structure MagicLinkPayload where
  Email : String
deriving Repr, DecidableEq

/-- Model of Go json.Marshal on MagicLinkPayload. -/
def marshalMagicLinkPayload (p : MagicLinkPayload) : String :=
  "\x7b" ++ jsonQuote "email" ++ ":" ++ jsonQuote p.Email ++ "\x7d"

/-- The VerifyOTPPayload struct of the source: email, token and type
fields (the Go field named Type is rendered here as OtpType). -/
structure VerifyOTPPayload where
  Email : String
  Token : String
  OtpType : String
deriving Repr, DecidableEq

/-- Model of Go json.Marshal on VerifyOTPPayload: fields in declaration
order email, token, type. -/
def marshalVerifyOTPPayload (p : VerifyOTPPayload) : String :=
  "\x7b" ++ jsonQuote "email" ++ ":" ++ jsonQuote p.Email ++ "," ++
    jsonQuote "token" ++ ":" ++ jsonQuote p.Token ++ "," ++
    jsonQuote "type" ++ ":" ++ jsonQuote p.OtpType ++ "\x7d"

/-! ### Model of the json decoding done by authRequest

The decoder reads one JSON value from the response body and fills an
AuthTokenResponse: a top-level object whose known fields are matched by
tag (unknown fields are ignored, missing fields keep their zero value,
a field of the wrong type is an error), or the literal null which leaves
the structure at its zero value. Flat scalar values cover every body the
backend's token endpoint produces; nested objects or arrays inside an
unknown field are not modelled. -/

/-- The AuthTokenResponse struct of the source. -/
structure AuthTokenResponse where
  AccessToken : String
  TokenType : String
  ExpiresIn : Int
  RefreshToken : String
deriving Repr, DecidableEq

/-- A scalar JSON value as produced by the flat parser. -/
inductive JsonVal where
  | str (s : String)
  | num (n : Int)
  | boolean (b : Bool)
  | null
deriving Repr, DecidableEq

/-- Skip JSON whitespace. -/
def jsonSkipWs : List Char → List Char
  | [] => []
  | c :: rest =>
    if c = ' ' ∨ c = '\t' ∨ c = '\n' ∨ c = '\r' then jsonSkipWs rest else c :: rest

/-- Parse the body of a JSON string literal, the opening quote already
consumed; returns the decoded characters and the rest of the input. -/
def parseStrChars : Nat → List Char → Option (List Char × List Char)
  | 0, _ => none
  | _ + 1, [] => none
  | fuel + 1, c :: rest =>
    if c = '"' then some ([], rest)
    else if c = '\\' then
      match rest with
      | [] => none
      | e :: rest2 =>
        let dec : Option Char :=
          if e = '"' then some '"'
          else if e = '\\' then some '\\'
          else if e = '/' then some '/'
          else if e = 'n' then some '\n'
          else if e = 't' then some '\t'
          else if e = 'r' then some '\r'
          else none
        match dec with
        | some d => (parseStrChars fuel rest2).map (fun p => (d :: p.1, p.2))
        | none => none
    else (parseStrChars fuel rest).map (fun p => (c :: p.1, p.2))

/-- Greedily take decimal digits from the front of the input. -/
def takeDigits : List Char → List Char × List Char
  | [] => ([], [])
  | c :: rest =>
    if decide (48 ≤ c.toNat) && decide (c.toNat ≤ 57) then
      let p := takeDigits rest
      (c :: p.1, p.2)
    else ([], c :: rest)

/-- Numeric value of a list of decimal digit characters. -/
def digitsToNat (l : List Char) : Nat :=
  l.foldl (fun acc c => acc * 10 + (c.toNat - 48)) 0

/-- Consume an expected literal character sequence. -/
def expectChars (pat : List Char) (l : List Char) : Option (List Char) :=
  if pat.isPrefixOf l then some (l.drop pat.length) else none

/-- Parse one scalar JSON value: a string, an integer, true, false or
null. -/
def parseJsonScalar (l : List Char) : Option (JsonVal × List Char) :=
  match jsonSkipWs l with
  | [] => none
  | c :: rest =>
    if c = '"' then
      (parseStrChars (rest.length + 1) rest).map (fun p => (JsonVal.str (String.mk p.1), p.2))
    else if c = '-' then
      match takeDigits rest with
      | ([], _) => none
      | (ds, rest2) => some (JsonVal.num (-(digitsToNat ds : Int)), rest2)
    else if decide (48 ≤ c.toNat) && decide (c.toNat ≤ 57) then
      match takeDigits (c :: rest) with
      | ([], _) => none
      | (ds, rest2) => some (JsonVal.num (digitsToNat ds : Int), rest2)
    else if c = 't' then (expectChars "rue".data rest).map (fun r => (JsonVal.boolean true, r))
    else if c = 'f' then (expectChars "alse".data rest).map (fun r => (JsonVal.boolean false, r))
    else if c = 'n' then (expectChars "ull".data rest).map (fun r => (JsonVal.null, r))
    else none

/-- Parse the members of a JSON object after its opening brace, as a list
of key/value pairs; expects at least one member. -/
def parseJsonMembers : Nat → List Char → Option (List (String × JsonVal) × List Char)
  | 0, _ => none
  | fuel + 1, l =>
    match jsonSkipWs l with
    | [] => none
    | c :: rest =>
      if c = '"' then
        match parseStrChars (rest.length + 1) rest with
        | none => none
        | some (key, rest2) =>
          match jsonSkipWs rest2 with
          | ':' :: rest3 =>
            match parseJsonScalar rest3 with
            | none => none
            | some (v, rest4) =>
              match jsonSkipWs rest4 with
              | ',' :: rest5 =>
                (parseJsonMembers fuel rest5).map
                  (fun p => ((String.mk key, v) :: p.1, p.2))
              | d :: rest5 =>
                if d = Char.ofNat 125 then some ([(String.mk key, v)], rest5) else none
              | [] => none
          | _ => none
      else none

/-- Parse a top-level JSON object into its field list; trailing input
after the closing brace is ignored, as a Go json.Decoder reads exactly
one value from the stream. -/
def parseTopObject (l : List Char) : Option (List (String × JsonVal)) :=
  match jsonSkipWs l with
  | [] => none
  | c :: rest =>
    if c = Char.ofNat 123 then
      match jsonSkipWs rest with
      | d :: rest2 =>
        if d = Char.ofNat 125 then some []
        else (parseJsonMembers (rest.length + 1) (d :: rest2)).map (fun p => p.1)
      | [] => none
    else none

/-- The last binding of a key in a field list: a Go decoder overwrites a
field each time its key appears, so on duplicate keys the last one wins. -/
def jsonLookup (fields : List (String × JsonVal)) (k : String) : Option JsonVal :=
  (fields.filter (fun p => p.1 = k)).getLast?.map (fun p => p.2)

/-- A string field of the decoded object: absent means the zero value,
present with a non-string value is a decode error. -/
def fieldStr (fields : List (String × JsonVal)) (k : String) : Option String :=
  match jsonLookup fields k with
  | none => some ""
  | some (JsonVal.str s) => some s
  | some _ => none

/-- An integer field of the decoded object: absent means the zero value,
present with a non-numeric value is a decode error. -/
def fieldInt (fields : List (String × JsonVal)) (k : String) : Option Int :=
  match jsonLookup fields k with
  | none => some 0
  | some (JsonVal.num n) => some n
  | some _ => none

/-- Model of decoding a response body into AuthTokenResponse as Go's
json.Decoder does in authRequest: none is a decode error. -/
def decodeAuthTokenResponse (s : String) : Option AuthTokenResponse :=
  let l := jsonSkipWs s.data
  if "null".data.isPrefixOf l then
    some { AccessToken := "", TokenType := "", ExpiresIn := 0, RefreshToken := "" }
  else
    match parseTopObject l with
    | none => none
    | some fields =>
      match fieldStr fields "access_token", fieldStr fields "token_type",
            fieldInt fields "expires_in", fieldStr fields "refresh_token" with
      | some a, some t, some e, some r =>
        some { AccessToken := a, TokenType := t, ExpiresIn := e, RefreshToken := r }
      | _, _, _, _ => none

/-! ### Model of the net/url pieces used by doRequest

doRequest parses the assembled URL, reads its query, adds the formatted
parameters and re-encodes. The model keeps the part before the first
question mark and the raw query; Go's url.Parse rejects URLs containing
an ASCII control character, which is the parse failure reachable from
the strings this client assembles. -/

/-- The reduced view of a parsed URL. -/
structure URLParts where
  beforeQuery : String
  rawQuery : String
deriving Repr, DecidableEq

/-- Does the string contain an ASCII control character (the condition
under which Go's url.Parse fails for the URLs assembled here). -/
def containsCtlChar (s : String) : Bool :=
  s.data.any (fun c => decide (c.toNat < 32) || c.toNat == 127)

/-- Model of Go url.Parse restricted to what doRequest consumes: the part
before the first question mark and the raw query after it. -/
def urlParse (s : String) : Option URLParts :=
  if containsCtlChar s then none
  else
    let p := splitAtFirstChar '?' s.data
    some { beforeQuery := String.mk p.1, rawQuery := String.mk (p.2.getD []) }

/-- Model of the URL.String method on the reduced view: re-attach the raw
query when it is non-empty. -/
def urlString (u : URLParts) : String :=
  u.beforeQuery ++ (if u.rawQuery = "" then "" else "?" ++ u.rawQuery)

/-- The raw query of an assembled URL string (everything after the first
question mark), used to state claims about emitted query strings. -/
def urlRawQuery (s : String) : String :=
  String.mk ((splitAtFirstChar '?' s.data).2.getD [])

/-- Model of Go's ParseQuery as invoked by URL.Query(): split the raw
query on ampersands, skip empty segments, split each segment at the
first equals sign and unescape both sides; a segment that fails to
unescape is dropped, as Query() ignores the error. Decoded bytes are
read back as characters (the queries this client parses are ASCII). -/
def parseQueryString (s : String) : List (String × String) :=
  (splitCharList '&' s.data).foldr (fun seg acc =>
    match seg with
    | [] => acc
    | c :: rest =>
      let p := splitAtFirstChar '=' (c :: rest)
      match queryUnescapeChars p.1, queryUnescapeChars (p.2.getD []) with
      | some kbs, some vbs =>
        (String.mk (kbs.map Char.ofNat), String.mk (vbs.map Char.ofNat)) :: acc
      | _, _ => acc) []

/-- Model of Go url.Values.Encode on the accumulated pairs: sort by key
and render each pair with both sides query-escaped, joined by
ampersands. The source adds each key of a Go map once, so the list
holds distinct keys and the sort order is the whole story. -/
def valuesEncode (q : List (String × String)) : String :=
  joinWith "&" ((sortPairsByKey q).map (fun kv => queryEscape kv.1 ++ "=" ++ queryEscape kv.2))

/-! ### HTTP and error model -/

/-- An outbound HTTP request as built by the source: method, URL, headers
in the order they were set, and an optional body. -/
structure Request where
  Method : String
  Url : String
  Headers : List (String × String)
  Body : Option String
deriving Repr, DecidableEq

/-- An HTTP response: a status code and the body bytes still unread on
the wire. Reading the body consumes it, which the embeddings of the
request functions track explicitly. -/
structure Response where
  StatusCode : Nat
  Body : String
deriving Repr, DecidableEq

/-- Model of http.Header.Set: replace the value of the key if present,
append the pair otherwise. -/
def setHeader (hs : List (String × String)) (k v : String) : List (String × String) :=
  if hs.any (fun p => p.1 = k) then hs.map (fun p => if p.1 = k then (k, v) else p)
  else hs ++ [(k, v)]

/-- Model of http.Header.Get. -/
def getHeader (hs : List (String × String)) (k : String) : Option String :=
  (hs.find? (fun p => p.1 = k)).map (fun p => p.2)

/-- A Go error value: the identity of the errors.New call site that
produced it together with its message, or a wrapping error. Go compares
errors by identity in errors.Is, so two errors.New sites with the same
message are still distinct errors. -/
inductive GoError where
  | new (site : Nat) (msg : String) : GoError
  | wrap (msg : String) (inner : GoError) : GoError
deriving Repr, DecidableEq

/-- The message of a Go error. -/
def GoError.message : GoError → String
  | GoError.new _ m => m
  | GoError.wrap m _ => m

/-- Model of errors.Is: the error equals the target or wraps an error
that matches it. -/
def errorsIs : GoError → GoError → Bool
  | e, target =>
    e == target ||
      match e with
      | GoError.wrap _ inner => errorsIs inner target
      | GoError.new _ _ => false

/-- The exported sentinel ErrInvalidResponse of the source (site 0). -/
def ErrInvalidResponse : GoError := GoError.new 0 "invalid response from server"

/-- The exported sentinel ErrRequestFailed of the source (site 1). -/
def ErrRequestFailed : GoError := GoError.new 1 "request failed"

/-! ### The client and its request pipeline -/

/-- The Client struct of the source. -/
structure Client where
  BaseUrl : String
  ApiKey : String
  Token : String
deriving Repr, DecidableEq

/-- NewClient of the source. -/
def NewClient (baseUrl apiKey token : String) : Client :=
  { BaseUrl := baseUrl, ApiKey := apiKey, Token := token }

/-- The REST path constant of the source. -/
def restApiPath : String := "/rest/v1"

/-- The auth path constant of the source. -/
def authApiPath : String := "/auth/v1"

/-- The token endpoint constant of the source. -/
def tokenApiPath : String := authApiPath ++ "/token"

/-- The signup endpoint constant of the source. -/
def signupApiPath : String := authApiPath ++ "/signup"

/-- The magic-link endpoint constant of the source. -/
def magicLinkApiPath : String := authApiPath ++ "/magiclink"

/-- The password-recovery endpoint constant of the source. -/
def recoverApiPath : String := authApiPath ++ "/recover"

/-- The OTP-verify endpoint constant of the source. -/
def verifyApiPath : String := authApiPath ++ "/verify"

/-- The user endpoint constant of the source. -/
def userApiPath : String := authApiPath ++ "/user"

/-- The logout endpoint constant of the source. -/
def logoutApiPath : String := authApiPath ++ "/logout"

/-- The invite endpoint constant of the source. -/
def inviteApiPath : String := authApiPath ++ "/invite"

/-- The reset endpoint constant of the source. -/
def resetApiPath : String := authApiPath ++ "/reset"

/-- The Authorization header value doRequest computes from a non-empty
client token (source lines 373-379): add the bearer marker unless the
token already carries it. -/
def bearerValue (t : String) : String :=
  if !(hasPre t "Bearer ") then "Bearer " ++ t else t

/-- formatQueryParams of the source: each value becomes an equality
filter expression, the query-escaped value after an eq. marker. -/
def formatQueryParams (params : List (String × String)) : List (String × String) :=
  params.map (fun p => (p.1, "eq." ++ queryEscape p.2))

/-- The outcome of a source function returning ([]byte, error), together
with the single request it issued on the transport (none when it
returned before performing one). -/
structure DoResult where
  request : Option Request
  bytes : Option String
  err : Option GoError
deriving Repr, DecidableEq

/-- doRequest of the source. It assembles base URL, the REST path and the
slash-trimmed endpoint; when query parameters are present it parses the
URL (returning nil, nil if parsing fails), adds the formatted parameters
and re-encodes the query; it sets the apikey header, a bearer
Authorization header when the client token is non-empty, and the JSON
content type; it performs the request once; on a non-2xx status it reads
the body for the log only, so the final read of the body returns the
empty remainder and the function returns those bytes with a nil error. -/
def doRequest (c : Client) (http : Request → Response) (method endpoint : String)
    (queryParams : List (String × String)) (body : Option String) : DoResult :=
  let cleanEndpoint := trimSlash endpoint
  let urlStr := c.BaseUrl ++ restApiPath ++ "/" ++ cleanEndpoint
  let assembled : Option String :=
    if 0 < queryParams.length then
      match urlParse urlStr with
      | none => none
      | some urlObj =>
        let q := parseQueryString urlObj.rawQuery
        let q := q ++ formatQueryParams queryParams
        some (urlString { urlObj with rawQuery := valuesEncode q })
    else some urlStr
  match assembled with
  | none => { request := none, bytes := none, err := none }
  | some urlStr2 =>
    let h1 := setHeader [] "apikey" c.ApiKey
    let h2 := if c.Token ≠ "" then setHeader h1 "Authorization" (bearerValue c.Token) else h1
    let h3 := setHeader h2 "Content-Type" "application/json"
    let req : Request := { Method := method, Url := urlStr2, Headers := h3, Body := body }
    let resp := http req
    let remaining := if resp.StatusCode < 200 ∨ 300 ≤ resp.StatusCode then "" else resp.Body
    { request := some req, bytes := some remaining, err := none }

/-- The outcome of authRequest: the request it issued, the decoded token
response on success, and the error otherwise. -/
structure AuthResult where
  request : Option Request
  response : Option AuthTokenResponse
  err : Option GoError
deriving Repr, DecidableEq

/-- authRequest of the source: marshal the payload, join the base URL and
the endpoint directly (no REST path), set only the apikey and
content-type headers, perform the request once; a non-2xx status yields
a fresh request-failed error (site 5), a body that fails to decode
yields a fresh decode error (site 6). -/
def authRequest (c : Client) (http : Request → Response) (endpoint : String)
    (payload : TokenRequestPayload) : AuthResult :=
  let body := marshalTokenRequestPayload payload
  let urlStr := c.BaseUrl ++ endpoint
  let h1 := setHeader [] "apikey" c.ApiKey
  let h2 := setHeader h1 "Content-Type" "application/json"
  let req : Request := { Method := "POST", Url := urlStr, Headers := h2, Body := some body }
  let resp := http req
  if resp.StatusCode < 200 ∨ 300 ≤ resp.StatusCode then
    { request := some req, response := none, err := some (GoError.new 5 "request failed") }
  else
    match decodeAuthTokenResponse resp.Body with
    | none => { request := some req, response := none, err := some (GoError.new 6 "failed to decode response") }
    | some a => { request := some req, response := some a, err := none }

/-! ### The exported operations of the source -/

/-- SignUp of the source: marshal the email/password map and POST it to
the signup path with a signup grant type, through doRequest. -/
def SignUp (c : Client) (http : Request → Response) (email password : String) : DoResult :=
  let payload := marshalStringMap [("email", email), ("password", password)]
  let path := signupApiPath ++ "?grant_type=signup"
  doRequest c http "POST" path [] (some payload)

/-- SignIn of the source: POST a password-grant token payload to the
token path through authRequest. -/
def SignIn (c : Client) (http : Request → Response) (email password : String) : AuthResult :=
  let payload : TokenRequestPayload := { Email := email, Password := password }
  let path := tokenApiPath ++ "?grant_type=password"
  authRequest c http path payload

/-- RefreshToken of the source: POST a refresh-grant token payload to the
token path through authRequest. -/
def RefreshToken (c : Client) (http : Request → Response) (refreshToken : String) : AuthResult :=
  let payload : TokenRequestPayload := { RefreshToken := refreshToken }
  let path := tokenApiPath ++ "?grant_type=refresh_token"
  authRequest c http path payload

/-- SendMagicLink of the source. -/
def SendMagicLink (c : Client) (http : Request → Response) (email : String) : DoResult :=
  doRequest c http "POST" magicLinkApiPath [] (some (marshalMagicLinkPayload { Email := email }))

/-- SendPasswordRecovery of the source. -/
def SendPasswordRecovery (c : Client) (http : Request → Response) (email : String) : DoResult :=
  doRequest c http "POST" recoverApiPath [] (some (marshalMagicLinkPayload { Email := email }))

/-- VerifyOTP of the source. -/
def VerifyOTP (c : Client) (http : Request → Response) (email token otpType : String) : DoResult :=
  doRequest c http "POST" verifyApiPath []
    (some (marshalVerifyOTPPayload { Email := email, Token := token, OtpType := otpType }))

/-- GetUser of the source. -/
def GetUser (c : Client) (http : Request → Response) : DoResult :=
  doRequest c http "GET" userApiPath [] none

/-- UpdateUser of the source. -/
def UpdateUser (c : Client) (http : Request → Response) (payload : List (String × String)) : DoResult :=
  doRequest c http "PUT" userApiPath [] (some (marshalStringMap payload))

/-- SignOut of the source. -/
def SignOut (c : Client) (http : Request → Response) : DoResult :=
  doRequest c http "POST" logoutApiPath [] none

/-- InviteUser of the source. -/
def InviteUser (c : Client) (http : Request → Response) (email : String) : DoResult :=
  doRequest c http "POST" inviteApiPath [] (some (marshalMagicLinkPayload { Email := email }))

/-- ResetPassword of the source: marshal the token/password map and POST
it to the reset path with a reset grant type, through doRequest. -/
def ResetPassword (c : Client) (http : Request → Response) (token newPassword : String) : DoResult :=
  let payload := marshalStringMap [("token", token), ("password", newPassword)]
  let path := resetApiPath ++ "?grant_type=reset_password"
  doRequest c http "POST" path [] (some payload)

/-- Get of the source: variadic query parameters, the first map used when
present, the empty map otherwise. -/
def Get (c : Client) (http : Request → Response) (endpoint : String)
    (queryParams : List (List (String × String))) : DoResult :=
  let params := match queryParams with | [] => [] | p :: _ => p
  doRequest c http "GET" endpoint params none

/-- Post of the source. -/
def Post (c : Client) (http : Request → Response) (endpoint : String) (data : String) : DoResult :=
  doRequest c http "POST" endpoint [] (some data)

/-- Put of the source: the primary-key name and value become a
single-entry query map. -/
def Put (c : Client) (http : Request → Response)
    (endpoint primaryKeyName primaryKeyValue : String) (data : String) : DoResult :=
  let query := [(primaryKeyName, primaryKeyValue)]
  doRequest c http "PUT" endpoint query (some data)

/-- Patch of the source. -/
def Patch (c : Client) (http : Request → Response) (endpoint : String)
    (queryParams : List (String × String)) (data : String) : DoResult :=
  doRequest c http "PATCH" endpoint queryParams (some data)

/-- Delete of the source: the primary-key name and value become a
single-entry query map. -/
def Delete (c : Client) (http : Request → Response)
    (endpoint primaryKeyName primaryKeyValue : String) : DoResult :=
  let query := [(primaryKeyName, primaryKeyValue)]
  doRequest c http "DELETE" endpoint query none

/-! ### General lemmas about the escaping model -/

/-- Code points are below the Unicode bound. -/
theorem char_toNat_lt (c : Char) : c.toNat < 0x110000 := by
  have h := c.valid
  simp only [Char.toNat]
  rcases h with h | ⟨h1, h2⟩ <;> omega

/-- UTF-8 encoding produces byte values. -/
theorem utf8BytesOfChar_lt (c : Char) : ∀ b ∈ utf8BytesOfChar c, b < 256 := by
  have h := char_toNat_lt c
  intro b hb
  simp only [utf8BytesOfChar] at hb
  split_ifs at hb with h1 h2 h3
  · simp only [List.mem_singleton] at hb; omega
  · simp only [List.mem_cons, List.not_mem_nil, or_false] at hb
    rcases hb with rfl | rfl <;> omega
  · simp only [List.mem_cons, List.not_mem_nil, or_false] at hb
    rcases hb with rfl | rfl | rfl <;> omega
  · simp only [List.mem_cons, List.not_mem_nil, or_false] at hb
    rcases hb with rfl | rfl | rfl | rfl <;> omega

/-- The byte view of a string consists of byte values. -/
theorem strBytes_lt (s : String) : ∀ b ∈ strBytes s, b < 256 := by
  intro b hb
  simp only [strBytes, List.mem_flatten] at hb
  obtain ⟨l, hl, hbl⟩ := hb
  simp only [List.mem_map] at hl
  obtain ⟨c, _, rfl⟩ := hl
  exact utf8BytesOfChar_lt c b hbl

/-- Unreserved bytes are ASCII. -/
theorem unreserved_lt (b : Nat) (h : isUnreservedByte b = true) : b < 128 := by
  simp only [isUnreservedByte, Bool.or_eq_true, Bool.and_eq_true, decide_eq_true_eq,
    beq_iff_eq] at h
  omega

/-- An unreserved byte turned into a character keeps its code and is
neither the percent nor the plus character. -/
theorem unreserved_char_facts : ∀ b : Nat, b < 128 → isUnreservedByte b = true →
    ((Char.ofNat b).toNat = b ∧ Char.ofNat b ≠ '%' ∧ Char.ofNat b ≠ '+') := by decide

/-- unhexChar inverts the uppercase hex digit table. -/
theorem unhex_hexDigitUpper : ∀ d : Nat, d < 16 → unhexChar (hexDigitUpper d) = some d := by decide

/-- Unfolding of the unescaper on an ordinary character. -/
theorem qu_other (c : Char) (rest : List Char) (h2 : c ≠ '%') (h3 : c ≠ '+') :
    queryUnescapeChars (c :: rest) = (queryUnescapeChars rest).map (fun l => c.toNat :: l) := by
  cases rest with
  | nil => simp [queryUnescapeChars, h2, h3]
  | cons a tl => cases tl <;> simp [queryUnescapeChars, h2, h3]

/-- Unfolding of the unescaper on a plus sign. -/
theorem qu_plus (rest : List Char) :
    queryUnescapeChars ('+' :: rest) = (queryUnescapeChars rest).map (fun l => 32 :: l) := by
  cases rest with
  | nil => simp [queryUnescapeChars]
  | cons a tl => cases tl <;> simp [queryUnescapeChars]

/-- Unfolding of the unescaper on a well-formed percent escape. -/
theorem qu_percent (a b : Char) (rest : List Char) (x y : Nat)
    (ha : unhexChar a = some x) (hb : unhexChar b = some y) :
    queryUnescapeChars ('%' :: a :: b :: rest) =
      (queryUnescapeChars rest).map (fun l => (16 * x + y) :: l) := by
  simp [queryUnescapeChars, ha, hb]

/-- Round trip of the byte-level escaper: unescaping an escaped byte
sequence gives the original bytes back. -/
theorem queryUnescape_queryEscapeBytes (bs : List Nat) (h : ∀ b ∈ bs, b < 256) :
    queryUnescapeChars (queryEscapeBytes bs) = some bs := by
  induction bs with
  | nil => rfl
  | cons b bs ih =>
    have hb : b < 256 := h b (List.mem_cons_self b bs)
    have ih2 := ih (fun x hx => h x (List.mem_cons_of_mem b hx))
    have hesc : queryEscapeBytes (b :: bs) = escByte b ++ queryEscapeBytes bs := by
      simp [queryEscapeBytes]
    rw [hesc]
    by_cases hu : isUnreservedByte b = true
    · obtain ⟨h1, h2, h3⟩ := unreserved_char_facts b (unreserved_lt b hu) hu
      rw [show escByte b = [Char.ofNat b] by simp [escByte, hu]]
      rw [List.cons_append, List.nil_append, qu_other _ _ h2 h3, ih2, h1]
      rfl
    · by_cases h32 : b = 32
      · subst h32
        rw [show escByte 32 = ['+'] by rfl]
        rw [List.cons_append, List.nil_append, qu_plus, ih2]
        rfl
      · have hesc2 : escByte b = ['%', hexDigitUpper (b / 16), hexDigitUpper (b % 16)] := by
          simp [escByte, hu, h32]
        have hd1 : unhexChar (hexDigitUpper (b / 16)) = some (b / 16) :=
          unhex_hexDigitUpper (b / 16) (by omega)
        have hd2 : unhexChar (hexDigitUpper (b % 16)) = some (b % 16) :=
          unhex_hexDigitUpper (b % 16) (by omega)
        rw [hesc2, List.cons_append, List.cons_append, List.cons_append, List.nil_append,
          qu_percent _ _ _ _ _ hd1 hd2, ih2]
        have hbb : 16 * (b / 16) + b % 16 = b := by omega
        rw [hbb]
        rfl

/-- Round trip at the string level: unescaping the escaped form of a
value reproduces exactly the value's bytes. -/
theorem queryUnescape_queryEscape (v : String) :
    queryUnescapeChars (queryEscape v).data = some (strBytes v) :=
  queryUnescape_queryEscapeBytes (strBytes v) (strBytes_lt v)

/-! ### State-threading forms of the exported methods

The Go methods take a pointer receiver; their bodies read the client
fields but contain no assignment to any of them, so each state-threading
form returns the receiver it was given as the post-state of the call. -/

/-- State-threading form of SignUp. -/
def SignUpSt (c : Client) (http : Request → Response) (email password : String) :
    Client × DoResult := (c, SignUp c http email password)

/-- State-threading form of SignIn. -/
def SignInSt (c : Client) (http : Request → Response) (email password : String) :
    Client × AuthResult := (c, SignIn c http email password)

/-- State-threading form of RefreshToken. -/
def RefreshTokenSt (c : Client) (http : Request → Response) (refreshToken : String) :
    Client × AuthResult := (c, RefreshToken c http refreshToken)

/-- State-threading form of SendMagicLink. -/
def SendMagicLinkSt (c : Client) (http : Request → Response) (email : String) :
    Client × DoResult := (c, SendMagicLink c http email)

/-- State-threading form of SendPasswordRecovery. -/
def SendPasswordRecoverySt (c : Client) (http : Request → Response) (email : String) :
    Client × DoResult := (c, SendPasswordRecovery c http email)

/-- State-threading form of VerifyOTP. -/
def VerifyOTPSt (c : Client) (http : Request → Response) (email token otpType : String) :
    Client × DoResult := (c, VerifyOTP c http email token otpType)

/-- State-threading form of GetUser. -/
def GetUserSt (c : Client) (http : Request → Response) : Client × DoResult :=
  (c, GetUser c http)

/-- State-threading form of UpdateUser. -/
def UpdateUserSt (c : Client) (http : Request → Response)
    (payload : List (String × String)) : Client × DoResult :=
  (c, UpdateUser c http payload)

/-- State-threading form of SignOut. -/
def SignOutSt (c : Client) (http : Request → Response) : Client × DoResult :=
  (c, SignOut c http)

/-- State-threading form of InviteUser. -/
def InviteUserSt (c : Client) (http : Request → Response) (email : String) :
    Client × DoResult := (c, InviteUser c http email)

/-- State-threading form of ResetPassword. -/
def ResetPasswordSt (c : Client) (http : Request → Response) (token newPassword : String) :
    Client × DoResult := (c, ResetPassword c http token newPassword)

/-- State-threading form of Get. -/
def GetSt (c : Client) (http : Request → Response) (endpoint : String)
    (queryParams : List (List (String × String))) : Client × DoResult :=
  (c, Get c http endpoint queryParams)

/-- State-threading form of Post. -/
def PostSt (c : Client) (http : Request → Response) (endpoint : String) (data : String) :
    Client × DoResult := (c, Post c http endpoint data)

/-- State-threading form of Put. -/
def PutSt (c : Client) (http : Request → Response)
    (endpoint primaryKeyName primaryKeyValue : String) (data : String) :
    Client × DoResult := (c, Put c http endpoint primaryKeyName primaryKeyValue data)

/-- State-threading form of Patch. -/
def PatchSt (c : Client) (http : Request → Response) (endpoint : String)
    (queryParams : List (String × String)) (data : String) : Client × DoResult :=
  (c, Patch c http endpoint queryParams data)

/-- State-threading form of Delete. -/
def DeleteSt (c : Client) (http : Request → Response)
    (endpoint primaryKeyName primaryKeyValue : String) : Client × DoResult :=
  (c, Delete c http endpoint primaryKeyName primaryKeyValue)

/-! ### Fixtures for the concrete scenarios -/

/-- A concrete client with base address http://h, API key key and a
non-empty token. -/
def cDemo : Client := { BaseUrl := "http://h", ApiKey := "key", Token := "tok" }

/-- A client whose base address contains a control character, so that the
URL assembled by doRequest fails to parse. -/
def cBadDemo : Client := { BaseUrl := "http://h\n", ApiKey := "k", Token := "" }

/-- A constant transport oracle: every request gets the given status and
body. -/
def respond (status : Nat) (body : String) : Request → Response :=
  fun _ => { StatusCode := status, Body := body }

/-- The token-endpoint body of the sign-in scenario. -/
def tokenJson : String :=
  "\x7b\"access_token\":\"T\",\"token_type\":\"bearer\",\"expires_in\":3600,\"refresh_token\":\"R\"\x7d"

/-! ### The claims -/

/-- C1: the claim says every data-surface verb operation returns a
non-nil error wrapping ErrRequestFailed together with the body text on a
non-2xx status. The code instead only logs in that branch and returns
the empty remainder of the already-consumed body with a nil error: at a
server answering 400 with body bad, all five verbs return error nil and
bytes equal to the empty (non-nil) byte slice, a success-shaped result. -/
theorem C1_code_returns_nil_error_on_400 :
    ((Get cDemo (respond 400 "bad") "Food" []).err = none ∧
      (Get cDemo (respond 400 "bad") "Food" []).bytes = some "") ∧
    ((Post cDemo (respond 400 "bad") "Food" "B").err = none ∧
      (Post cDemo (respond 400 "bad") "Food" "B").bytes = some "") ∧
    ((Put cDemo (respond 400 "bad") "Food" "id" "10" "B").err = none ∧
      (Put cDemo (respond 400 "bad") "Food" "id" "10" "B").bytes = some "") ∧
    ((Patch cDemo (respond 400 "bad") "Food" [("id", "10")] "B").err = none ∧
      (Patch cDemo (respond 400 "bad") "Food" [("id", "10")] "B").bytes = some "") ∧
    ((Delete cDemo (respond 400 "bad") "Food" "id" "10").err = none ∧
      (Delete cDemo (respond 400 "bad") "Food" "id" "10").bytes = some "") := by decide

/-- C2: the claim says the generic-auth operations target the base
address followed by exactly the auth path, with no tabular-resource
path inserted. The code routes them through doRequest, which always
inserts the REST path: each of the nine operations emits a URL of the
form base plus /rest/v1 plus the auth path, different from the URL the
claim prescribes. -/
theorem C2_generic_auth_paths_carry_rest_marker :
    (SignUp cDemo (respond 200 "ok") "a@b.c" "pass").request.map Request.Url =
      some "http://h/rest/v1/auth/v1/signup?grant_type=signup" ∧
    (SendMagicLink cDemo (respond 200 "ok") "a@b.c").request.map Request.Url =
      some "http://h/rest/v1/auth/v1/magiclink" ∧
    (SendPasswordRecovery cDemo (respond 200 "ok") "a@b.c").request.map Request.Url =
      some "http://h/rest/v1/auth/v1/recover" ∧
    (VerifyOTP cDemo (respond 200 "ok") "a@b.c" "123456" "magiclink").request.map Request.Url =
      some "http://h/rest/v1/auth/v1/verify" ∧
    (GetUser cDemo (respond 200 "ok")).request.map Request.Url =
      some "http://h/rest/v1/auth/v1/user" ∧
    (UpdateUser cDemo (respond 200 "ok") [("name", "Jane")]).request.map Request.Url =
      some "http://h/rest/v1/auth/v1/user" ∧
    (SignOut cDemo (respond 200 "ok")).request.map Request.Url =
      some "http://h/rest/v1/auth/v1/logout" ∧
    (InviteUser cDemo (respond 200 "ok") "new@user.com").request.map Request.Url =
      some "http://h/rest/v1/auth/v1/invite" ∧
    (ResetPassword cDemo (respond 200 "ok") "tok" "new").request.map Request.Url =
      some "http://h/rest/v1/auth/v1/reset?grant_type=reset_password" ∧
    ("http://h/rest/v1/auth/v1/signup?grant_type=signup" : String) ≠
      "http://h/auth/v1/signup?grant_type=signup" := by decide

/-- C3 counterexample: the claim says the two token-flow failure classes
are matchable against the exported sentinels. At a server answering 400,
SignIn returns a fresh request-failed error that errors.Is does not
match against ErrRequestFailed, and at a 200 with an undecodable body it
returns a fresh decode error that errors.Is does not match against
ErrInvalidResponse. -/
theorem C3_sentinel_matching_fails :
    (SignIn cDemo (respond 400 "bad") "a@b.c" "pass").err =
      some (GoError.new 5 "request failed") ∧
    errorsIs (GoError.new 5 "request failed") ErrRequestFailed = false ∧
    (SignIn cDemo (respond 200 "not json") "a@b.c" "pass").err =
      some (GoError.new 6 "failed to decode response") ∧
    errorsIs (GoError.new 6 "failed to decode response") ErrInvalidResponse = false := by decide

/-- C3 amended: for SignIn and RefreshToken, a non-2xx status yields an
error with message request failed and a 2xx response whose body fails to
decode yields an error with message failed to decode response; the two
classes carry distinct messages, but neither is or wraps the exported
sentinels, so errors.Is matching against ErrRequestFailed or
ErrInvalidResponse does not identify them. -/
theorem C3_amended_error_classes_distinct_by_message :
    ∀ (c : Client) (email pw rt : String) (status : Nat) (bodyStr : String),
      ((SignIn c (respond status bodyStr) email pw).err =
        if 200 ≤ status ∧ status < 300 then
          (match decodeAuthTokenResponse bodyStr with
           | none => some (GoError.new 6 "failed to decode response")
           | some _ => none)
        else some (GoError.new 5 "request failed")) ∧
      ((RefreshToken c (respond status bodyStr) rt).err =
        if 200 ≤ status ∧ status < 300 then
          (match decodeAuthTokenResponse bodyStr with
           | none => some (GoError.new 6 "failed to decode response")
           | some _ => none)
        else some (GoError.new 5 "request failed")) ∧
      (GoError.new 5 "request failed").message ≠
        (GoError.new 6 "failed to decode response").message ∧
      errorsIs (GoError.new 5 "request failed") ErrRequestFailed = false ∧
      errorsIs (GoError.new 6 "failed to decode response") ErrInvalidResponse = false := by
  intro c email pw rt status bodyStr
  refine ⟨?_, ?_, by decide, by decide, by decide⟩
  · simp only [SignIn, authRequest, respond]
    by_cases h : 200 ≤ status ∧ status < 300
    · rw [if_pos h, if_neg (by omega)]
      cases hdec : decodeAuthTokenResponse bodyStr <;> simp [hdec]
    · rw [if_neg h, if_pos (by omega)]
  · simp only [RefreshToken, authRequest, respond]
    by_cases h : 200 ≤ status ∧ status < 300
    · rw [if_pos h, if_neg (by omega)]
      cases hdec : decodeAuthTokenResponse bodyStr <;> simp [hdec]
    · rw [if_neg h, if_pos (by omega)]

/-- C4 counterexample: the claim says every outbound request, including
those of SignIn and RefreshToken, carries an Authorization header when
the client token is non-empty. The request SignIn issues for a client
with a non-empty token carries no Authorization header at all. -/
theorem C4_token_flow_lacks_authorization :
    (SignIn cDemo (respond 200 "null") "a@b.c" "pass").request.map
        (fun r => getHeader r.Headers "Authorization") = some none ∧
    cDemo.Token ≠ "" := by decide

/-- C4 amended: every request issued by doRequest (the data surface and
the generic-auth operations) carries the apikey header with the
configured key, the JSON content type, and a bearer Authorization header
exactly when the client token is non-empty; every request issued by
authRequest (SignIn, RefreshToken) carries the apikey header and the
JSON content type but never an Authorization header. -/
theorem C4_amended_header_policy :
    (∀ (c : Client) (http : Request → Response) (m e : String)
        (qp : List (String × String)) (b : Option String) (r : Request),
      (doRequest c http m e qp b).request = some r →
        getHeader r.Headers "apikey" = some c.ApiKey ∧
        getHeader r.Headers "Content-Type" = some "application/json" ∧
        (c.Token ≠ "" → getHeader r.Headers "Authorization" = some (bearerValue c.Token)) ∧
        (c.Token = "" → getHeader r.Headers "Authorization" = none)) ∧
    (∀ (c : Client) (http : Request → Response) (e : String) (p : TokenRequestPayload)
        (r : Request),
      (authRequest c http e p).request = some r →
        getHeader r.Headers "apikey" = some c.ApiKey ∧
        getHeader r.Headers "Content-Type" = some "application/json" ∧
        getHeader r.Headers "Authorization" = none) := by
  constructor
  · intro c http m e qp b r hr
    unfold doRequest at hr
    by_cases ht : c.Token = "" <;> simp only [ht, if_true, if_false, ite_true, ite_false] at hr <;>
      split at hr
    · simp at hr
    · simp only [Option.some.injEq] at hr
      subst hr
      refine ⟨?_, ?_, fun hne => ?_, fun heq => ?_⟩ <;> simp_all [setHeader, getHeader]
    · simp at hr
    · simp only [Option.some.injEq] at hr
      subst hr
      refine ⟨?_, ?_, fun hne => ?_, fun heq => ?_⟩ <;> simp_all [setHeader, getHeader]
  · intro c http e p r hr
    unfold authRequest at hr
    dsimp only at hr
    split at hr
    · simp only [Option.some.injEq] at hr
      subst hr
      refine ⟨?_, ?_, ?_⟩ <;> simp [setHeader, getHeader]
    · split at hr <;>
      · simp only [Option.some.injEq] at hr
        subst hr
        refine ⟨?_, ?_, ?_⟩ <;> simp [setHeader, getHeader]

/-- C4 witness: the amended header policy applied to a concrete GET on
the data surface of a client with token tok. -/
theorem C4_amended_header_policy_witness :
    getHeader [("apikey", "key"), ("Authorization", "Bearer tok"),
        ("Content-Type", "application/json")] "apikey" = some cDemo.ApiKey ∧
    getHeader [("apikey", "key"), ("Authorization", "Bearer tok"),
        ("Content-Type", "application/json")] "Content-Type" = some "application/json" ∧
    (cDemo.Token ≠ "" → getHeader [("apikey", "key"), ("Authorization", "Bearer tok"),
        ("Content-Type", "application/json")] "Authorization" =
      some (bearerValue cDemo.Token)) ∧
    (cDemo.Token = "" → getHeader [("apikey", "key"), ("Authorization", "Bearer tok"),
        ("Content-Type", "application/json")] "Authorization" = none) :=
  C4_amended_header_policy.1 cDemo (respond 200 "ok") "GET" "Food" [] none
    { Method := "GET", Url := "http://h/rest/v1/Food",
      Headers := [("apikey", "key"), ("Authorization", "Bearer tok"),
        ("Content-Type", "application/json")], Body := none }
    (by decide)

/-- C5 counterexample: the claim's scenario expects the emitted query
string for a Get with the filter name John Doe to contain
name=eq.John%20Doe or its plus-encoded equivalent. The emitted raw
query is name=eq.John%2BDoe (the plus sign of the first escaping pass is
escaped again by the query encoder) and contains neither form the claim
allows. -/
theorem C5_scenario_double_encodes :
    (Get cDemo (respond 200 "ok") "Food" [[("name", "John Doe")]]).request.map
        (fun r => urlRawQuery r.Url) = some "name=eq.John%2BDoe" ∧
    containsSub "name=eq.John%2BDoe" "name=eq.John%20Doe" = false ∧
    containsSub "name=eq.John%2BDoe" "name=eq.John+Doe" = false := by decide

/-- C5 amended: every value the filter formatter hands to the query
builder has the form eq. followed by the escaped value, and unescaping
that suffix reproduces the original value's bytes exactly (the round
trip law holds at the formatter); the query encoder then escapes those
values a second time, so the raw query emitted for the scenario's filter
is name=eq.John%2BDoe. -/
theorem C5_amended_eq_filter_roundtrip :
    (∀ (params : List (String × String)) (kv : String × String),
        kv ∈ formatQueryParams params →
          ∃ p ∈ params, kv = (p.1, "eq." ++ queryEscape p.2) ∧
            queryUnescapeChars (queryEscape p.2).data = some (strBytes p.2)) ∧
    (Get cDemo (respond 200 "ok") "Food" [[("name", "John Doe")]]).request.map
        (fun r => urlRawQuery r.Url) = some "name=eq.John%2BDoe" := by
  constructor
  · intro params kv hkv
    simp only [formatQueryParams, List.mem_map] at hkv
    obtain ⟨p, hp, rfl⟩ := hkv
    exact ⟨p, hp, rfl, queryUnescape_queryEscape p.2⟩
  · decide

/-- C5 witness: the round-trip part of the amended law applied to the
scenario's single-entry filter map. -/
theorem C5_amended_eq_filter_roundtrip_witness :
    ∃ p ∈ [("name", "John Doe")], (("name", "eq.John+Doe") : String × String) =
      (p.1, "eq." ++ queryEscape p.2) ∧
      queryUnescapeChars (queryEscape p.2).data = some (strBytes p.2) :=
  C5_amended_eq_filter_roundtrip.1 [("name", "John Doe")] ("name", "eq.John+Doe") (by decide)

/-- C6: on every request doRequest issues for a client with a non-empty
token, the Authorization header is the normalized bearer value: a token
without the bearer marker receives it, a token already carrying it
passes through unchanged, and normalizing an already-normalized token
changes nothing. -/
theorem C6_bearer_normalization :
    (∀ (c : Client) (http : Request → Response) (m e : String)
        (qp : List (String × String)) (b : Option String) (r : Request),
      (doRequest c http m e qp b).request = some r → c.Token ≠ "" →
        getHeader r.Headers "Authorization" = some (bearerValue c.Token)) ∧
    (∀ t : String,
      (hasPre t "Bearer " = false → bearerValue t = "Bearer " ++ t) ∧
      (hasPre t "Bearer " = true → bearerValue t = t) ∧
      bearerValue (bearerValue t) = bearerValue t) := by
  constructor
  · intro c http m e qp b r hr ht
    unfold doRequest at hr
    simp only [ht, if_true, if_false, ite_true, ite_false] at hr
    split at hr
    · simp at hr
    · simp only [Option.some.injEq] at hr
      subst hr
      simp_all [setHeader, getHeader]
  · intro t
    refine ⟨fun hf => by simp [bearerValue, hf], fun htr => by simp [bearerValue, htr], ?_⟩
    by_cases hp : hasPre t "Bearer " = true
    · simp [bearerValue, hp]
    · have hf : hasPre t "Bearer " = false := by simpa using hp
      have h1 : bearerValue t = "Bearer " ++ t := by simp [bearerValue, hf]
      have h2 : hasPre ("Bearer " ++ t) "Bearer " = true := by
        simp only [hasPre, String.data_append]
        exact List.isPrefixOf_iff_prefix.mpr (List.prefix_append _ _)
      rw [h1]
      simp [bearerValue, h2]

/-- C6 witness: the normalization applied to the concrete token tok on a
concrete data-surface request. -/
theorem C6_bearer_normalization_witness :
    getHeader [("apikey", "key"), ("Authorization", "Bearer tok"),
        ("Content-Type", "application/json")] "Authorization" = some (bearerValue "tok") ∧
    bearerValue "tok" = "Bearer " ++ "tok" ∧
    bearerValue (bearerValue "tok") = bearerValue "tok" :=
  ⟨C6_bearer_normalization.1 cDemo (respond 200 "ok") "GET" "Food" [] none
      { Method := "GET", Url := "http://h/rest/v1/Food",
        Headers := [("apikey", "key"), ("Authorization", "Bearer tok"),
          ("Content-Type", "application/json")], Body := none }
      (by decide) (by decide),
    (C6_bearer_normalization.2 "tok").1 (by decide),
    (C6_bearer_normalization.2 "tok").2.2⟩

/-- The URL of the request doRequest issues depends only on the client,
the endpoint and the query parameters, not on the transport, the method
or the body. -/
theorem doRequest_url_independent (c : Client) (http1 http2 : Request → Response)
    (m1 m2 e : String) (qp : List (String × String)) (b1 b2 : Option String) :
    (doRequest c http1 m1 e qp b1).request.map Request.Url =
      (doRequest c http2 m2 e qp b2).request.map Request.Url := by
  by_cases hl : 0 < qp.length
  · cases hp : urlParse (c.BaseUrl ++ restApiPath ++ "/" ++ trimSlash e) with
    | none => simp [doRequest, hl, hp]
    | some u => simp [doRequest, hl, hp]
  · simp [doRequest, hl]

/-- C7: for every endpoint and primary-key pair, Put and Delete fold the
pair into the single-entry filter map handed to doRequest, that map is
equality-encoded exactly as Get's parameters are (the eq. marker plus
the escaped value), and the URL each emits coincides with the URL of a
Get filtered by the same single-entry map; in particular the scenario's
Put issues exactly one request whose query string is id=eq.10 and whose
body is the caller's data, and Delete issues the same URL without a
body. -/
theorem C7_put_delete_single_pk_filter :
    ∀ (c : Client) (http : Request → Response)
      (endpoint primaryKeyName primaryKeyValue data : String),
      (Put c http endpoint primaryKeyName primaryKeyValue data =
        doRequest c http "PUT" endpoint [(primaryKeyName, primaryKeyValue)] (some data)) ∧
      (Delete c http endpoint primaryKeyName primaryKeyValue =
        doRequest c http "DELETE" endpoint [(primaryKeyName, primaryKeyValue)] none) ∧
      (formatQueryParams [(primaryKeyName, primaryKeyValue)] =
        [(primaryKeyName, "eq." ++ queryEscape primaryKeyValue)]) ∧
      ((Put c http endpoint primaryKeyName primaryKeyValue data).request.map Request.Url =
        (Get c http endpoint [[(primaryKeyName, primaryKeyValue)]]).request.map Request.Url) ∧
      ((Delete c http endpoint primaryKeyName primaryKeyValue).request.map Request.Url =
        (Get c http endpoint [[(primaryKeyName, primaryKeyValue)]]).request.map Request.Url) ∧
      ((Put cDemo (respond 200 "ok") "Food" "id" "10" data).request =
        some { Method := "PUT", Url := "http://h/rest/v1/Food?id=eq.10",
               Headers := [("apikey", "key"), ("Authorization", "Bearer tok"),
                 ("Content-Type", "application/json")],
               Body := some data }) ∧
      urlRawQuery "http://h/rest/v1/Food?id=eq.10" = "id=eq.10" ∧
      ((Delete cDemo (respond 200 "ok") "Food" "id" "10").request =
        some { Method := "DELETE", Url := "http://h/rest/v1/Food?id=eq.10",
               Headers := [("apikey", "key"), ("Authorization", "Bearer tok"),
                 ("Content-Type", "application/json")],
               Body := none }) := by
  intro c http endpoint primaryKeyName primaryKeyValue data
  refine ⟨rfl, rfl, rfl, ?_, ?_, rfl, by decide, by decide⟩
  · exact doRequest_url_independent c http http "PUT" "GET" endpoint
      [(primaryKeyName, primaryKeyValue)] (some data) none
  · exact doRequest_url_independent c http http "DELETE" "GET" endpoint
      [(primaryKeyName, primaryKeyValue)] none none

/-- authRequest always issues exactly one POST whose URL is the base
address joined directly with the endpoint, whose headers are the apikey
and JSON content type, and whose body is the marshaled payload,
whatever the transport answers. -/
theorem authRequest_request_shape (c : Client) (http : Request → Response) (e : String)
    (p : TokenRequestPayload) :
    (authRequest c http e p).request =
      some { Method := "POST", Url := c.BaseUrl ++ e,
             Headers := [("apikey", c.ApiKey), ("Content-Type", "application/json")],
             Body := some (marshalTokenRequestPayload p) } := by
  unfold authRequest
  dsimp only
  split
  · rfl
  · split <;> rfl

/-- C8: for every client and credentials, SignIn posts its marshaled
token payload to the base address followed directly by the token path
with the password grant type and RefreshToken to the same path with the
refresh grant type (no REST resource path inserted), and on any 2xx
response the returned structure is exactly the JSON decoding of the
body; in particular the scenario's body decodes with AccessToken T, and
the scenario URL contains no /rest/v1. -/
theorem C8_token_flow_path_and_decoding :
    ∀ (c : Client) (http : Request → Response) (email pw rt : String),
      ((SignIn c http email pw).request =
        some { Method := "POST", Url := c.BaseUrl ++ "/auth/v1/token?grant_type=password",
               Headers := [("apikey", c.ApiKey), ("Content-Type", "application/json")],
               Body := some (marshalTokenRequestPayload
                 { Email := email, Password := pw, RefreshToken := "", GrantType := "" }) }) ∧
      ((RefreshToken c http rt).request =
        some { Method := "POST", Url := c.BaseUrl ++ "/auth/v1/token?grant_type=refresh_token",
               Headers := [("apikey", c.ApiKey), ("Content-Type", "application/json")],
               Body := some (marshalTokenRequestPayload
                 { Email := "", Password := "", RefreshToken := rt, GrantType := "" }) }) ∧
      (∀ (status : Nat) (bodyStr : String), 200 ≤ status → status < 300 →
        (SignIn c (respond status bodyStr) email pw).response = decodeAuthTokenResponse bodyStr ∧
        (RefreshToken c (respond status bodyStr) rt).response = decodeAuthTokenResponse bodyStr) ∧
      ((SignIn cDemo (respond 200 tokenJson) "a@b.c" "pass").response =
        some { AccessToken := "T", TokenType := "bearer", ExpiresIn := 3600,
               RefreshToken := "R" }) ∧
      ((SignIn cDemo (respond 200 tokenJson) "a@b.c" "pass").err = none) ∧
      containsSub "http://h/auth/v1/token?grant_type=password" "/rest/v1" = false := by
  intro c http email pw rt
  refine ⟨authRequest_request_shape c http _ _, authRequest_request_shape c http _ _,
    ?_, by decide, by decide, by decide⟩
  intro status bodyStr h1 h2
  constructor
  · show (authRequest c (respond status bodyStr) _ _).response = _
    unfold authRequest
    dsimp only [respond]
    rw [if_neg (by omega)]
    cases hdec : decodeAuthTokenResponse bodyStr <;> simp [hdec]
  · show (authRequest c (respond status bodyStr) _ _).response = _
    unfold authRequest
    dsimp only [respond]
    rw [if_neg (by omega)]
    cases hdec : decodeAuthTokenResponse bodyStr <;> simp [hdec]

/-- C8 witness: the decode clause applied at the concrete 200 response of
the sign-in scenario. -/
theorem C8_token_flow_path_and_decoding_witness :
    (SignIn cDemo (respond 200 tokenJson) "a@b.c" "pass").response =
      decodeAuthTokenResponse tokenJson ∧
    (RefreshToken cDemo (respond 200 tokenJson) "R").response =
      decodeAuthTokenResponse tokenJson :=
  (C8_token_flow_path_and_decoding cDemo (respond 200 tokenJson) "a@b.c" "pass" "R").2.2.1
    200 tokenJson (by decide) (by decide)

/-- C9: when query parameters are supplied and the assembled URL fails to
parse, doRequest returns nil response bytes together with a nil error, a
success-shaped result hiding the failure. -/
theorem C9_parse_failure_returns_nil_nil :
    ∀ (c : Client) (http : Request → Response) (m e : String)
      (qp : List (String × String)) (b : Option String),
      0 < qp.length →
      urlParse (c.BaseUrl ++ restApiPath ++ "/" ++ trimSlash e) = none →
      doRequest c http m e qp b = { request := none, bytes := none, err := none } := by
  intro c http m e qp b hlen hparse
  unfold doRequest
  simp [hlen, hparse]

/-- C9 witness: a client whose base address contains a newline makes the
assembled URL unparseable, and the call observes nil bytes and nil
error. -/
theorem C9_parse_failure_returns_nil_nil_witness :
    0 < ([("a", "b")] : List (String × String)).length ∧
    urlParse (cBadDemo.BaseUrl ++ restApiPath ++ "/" ++ trimSlash "Food") = none ∧
    doRequest cBadDemo (respond 200 "ok") "GET" "Food" [("a", "b")] none =
      { request := none, bytes := none, err := none } :=
  ⟨by decide, by decide,
    C9_parse_failure_returns_nil_nil cBadDemo (respond 200 "ok") "GET" "Food" [("a", "b")] none
      (by decide) (by decide)⟩

/-- C10: every operation leaves the three client fields unchanged; in
particular SignIn and RefreshToken do not write the freshly obtained
tokens back into the client, whose token field after the call is still
the one it held before. -/
theorem C10_client_fields_unchanged :
    ∀ (c : Client) (http : Request → Response) (s1 s2 s3 : String)
      (m : List (String × String)) (qps : List (List (String × String))) (b : String),
      (SignUpSt c http s1 s2).1 = c ∧
      (SignInSt c http s1 s2).1 = c ∧
      (RefreshTokenSt c http s1).1 = c ∧
      (SendMagicLinkSt c http s1).1 = c ∧
      (SendPasswordRecoverySt c http s1).1 = c ∧
      (VerifyOTPSt c http s1 s2 s3).1 = c ∧
      (GetUserSt c http).1 = c ∧
      (UpdateUserSt c http m).1 = c ∧
      (SignOutSt c http).1 = c ∧
      (InviteUserSt c http s1).1 = c ∧
      (ResetPasswordSt c http s1 s2).1 = c ∧
      (GetSt c http s1 qps).1 = c ∧
      (PostSt c http s1 b).1 = c ∧
      (PutSt c http s1 s2 s3 b).1 = c ∧
      (PatchSt c http s1 m b).1 = c ∧
      (DeleteSt c http s1 s2 s3).1 = c ∧
      (SignInSt c http s1 s2).1.Token = c.Token ∧
      (RefreshTokenSt c http s1).1.Token = c.Token :=
  fun _ _ _ _ _ _ _ _ =>
    ⟨rfl, rfl, rfl, rfl, rfl, rfl, rfl, rfl, rfl, rfl, rfl, rfl, rfl, rfl, rfl, rfl, rfl, rfl⟩

end Supabase
